import Mathlib

/-!
Shallow embedding of `src/jinja2/sandbox.py` (the Jinja sandbox layer).

Host-application objects are external to the sandbox module; they are
modelled through the interface the module uses them by:

* attribute lookup (`getattr`) either yields a value or signals
  "no such attribute" (an `AttributeError`, the only failure the data
  model assigns to plain attribute access);
* item lookup (`obj[key]`) either yields a value or fails with a type
  error ("object not subscriptable") or a lookup error (missing
  key/index);
* `str(key)` conversion of a text key may fail (e.g. a non-ASCII
  unicode key under a narrow default encoding), recorded as a flag;
* each object carries the runtime-category facts the module tests with
  `isinstance` (function, method, type, code/traceback/frame, generator,
  list-like, dict-like, set-like).

The `undefined` factory of the environment (from `jinja2.runtime`) is
modelled by the `MissingValue` record: it carries the optional hint
message, the looked-up name, the owning object, and the error class the
factory was given (`SecurityError`, or the default undefined error).
-/

namespace Sandbox

/-- Model of a host Python value as seen by the sandbox: the sandbox only
ever asks for the truthiness of attribute values (via `getattr(obj, name,
False)`), so booleans, integers and strings are concrete and every other
value is an opaque reference, which is truthy by Python's default rule. -/
inductive PyVal where
  | bool : Bool → PyVal
  | int : Int → PyVal
  | str : String → PyVal
  | ref : Nat → PyVal
deriving DecidableEq, Repr

/-- Python truthiness for the modelled values: `False`, `0` and `""` are
falsy; an opaque object reference is truthy by default. -/
def truthy : PyVal → Bool
  | .bool b => b
  | .int n => n != 0
  | .str s => s != ""
  | .ref _ => true

/-- A text (`basestring`) subscript key: its character content, and
whether the `str(argument)` conversion performed by `subscribe` succeeds
(it can fail for a non-ASCII unicode key; the source wraps it in a bare
`except`). When conversion succeeds it yields the same characters. -/
structure TextKey where
  s : String
  strOk : Bool
deriving DecidableEq, Repr

/-- A subscript argument: either a text key or a non-text value (e.g. an
integer index), which skips the attribute branch of `subscribe`. -/
inductive Arg where
  | text : TextKey → Arg
  | nonText : Int → Arg
deriving DecidableEq, Repr

/-- Outcome of an item lookup `obj[key]` on a host object: a value, a
`TypeError` (the object does not support subscripting with this key), or
a `LookupError` (`KeyError`/`IndexError`: no such key or index). -/
inductive ItemRes where
  | ok : PyVal → ItemRes
  | typeErr : ItemRes
  | lookupErr : ItemRes
deriving DecidableEq, Repr

/-- Model of a host object, through the interface `sandbox.py` uses:
`isinstance` category facts, the class name (`obj.__class__.__name__`),
the `repr` text, the attribute table (`getattr`: `none` means the lookup
raises `AttributeError`) and the item-lookup behaviour. The category
flags are independent booleans because a host class may be an instance
of several of the tested categories at once; the source resolves the
overlap by the order of its `isinstance` tests. -/
structure Obj where
  isFunction : Bool := false
  isMethod : Bool := false
  isTypeObj : Bool := false
  isCode : Bool := false
  isTraceback : Bool := false
  isFrame : Bool := false
  isGenerator : Bool := false
  isListType : Bool := false
  isDictType : Bool := false
  isSetType : Bool := false
  className : String := "object"
  reprStr : String := "<object>"
  attrs : String → Option PyVal := fun _ => none
  items : Arg → ItemRes := fun _ => .typeErr

/-- Constant `MAX_RANGE`: maximum number of items a range may produce. -/
def MAX_RANGE : Nat := 100000

/-- Constant `UNSAFE_FUNCTION_ATTRIBUTES` of the source: attributes of
function objects that are considered not exposable. -/
def RESTRICTED_FUNCTION_ATTRIBUTES : List String :=
  ["func_closure", "func_code", "func_dict", "func_defaults", "func_globals"]

/-- Constant `UNSAFE_METHOD_ATTRIBUTES` of the source: method attributes
that are considered not exposable (function attributes are too). -/
def RESTRICTED_METHOD_ATTRIBUTES : List String :=
  ["im_class", "im_func", "im_self"]

/-- Constant `MODIFYING_SET_ATTRIBUTES`. -/
def MODIFYING_SET_ATTRIBUTES : List String :=
  ["add", "clear", "difference_update", "discard", "pop", "remove",
   "symmetric_difference_update", "update"]

/-- Constant `MODIFYING_DICT_ATTRIBUTES`. -/
def MODIFYING_DICT_ATTRIBUTES : List String :=
  ["clear", "pop", "popitem", "setdefault", "update"]

/-- Constant `MODIFYING_LIST_ATTRIBUTES`. -/
def MODIFYING_LIST_ATTRIBUTES : List String :=
  ["append", "reverse", "insert", "sort", "extend", "remove"]

/-- Python's `s.startswith(pre)`: character-level prefix test (written
over the character lists so that it evaluates by kernel reduction). -/
def pyStartsWith (s pre : String) : Bool :=
  pre.data.isPrefixOf s.data

/-- Embedding of `is_internal_attribute(obj, attr)`: tests whether the
attribute is an internal python attribute, by the ordered `isinstance`
dispatch of the source (function, method, type, code/traceback/frame,
generator, then the double-underscore fallback). -/
def is_internal_attribute (obj : Obj) (attr : String) : Bool :=
  if obj.isFunction then
    RESTRICTED_FUNCTION_ATTRIBUTES.contains attr
  else if obj.isMethod then
    RESTRICTED_FUNCTION_ATTRIBUTES.contains attr ||
      RESTRICTED_METHOD_ATTRIBUTES.contains attr
  else if obj.isTypeObj then
    attr == "mro"
  else if obj.isCode || obj.isTraceback || obj.isFrame then
    true
  else if obj.isGenerator then
    attr == "gi_frame"
  else
    pyStartsWith attr "__"

/-- Embedding of `modifies_builtin_mutable(obj, attr)`: would calling
this attribute on a builtin mutable object (list, dict or set, or their
"user" versions) modify it.  The `isinstance` tests run in the source's
order: list types first, then dict types, then set types; an object in
none of the categories yields `false`. -/
def modifies_builtin_mutable (obj : Obj) (attr : String) : Bool :=
  if obj.isListType then
    MODIFYING_LIST_ATTRIBUTES.contains attr
  else if obj.isDictType then
    MODIFYING_DICT_ATTRIBUTES.contains attr
  else if obj.isSetType then
    MODIFYING_SET_ATTRIBUTES.contains attr
  else
    false

/-- Embedding of `SandboxedEnvironment.is_safe_attribute`: all attributes
starting with an underscore are private, as are the internal attributes
per `is_internal_attribute`.  The `value` argument is accepted and
ignored, as in the source. -/
def is_safe_attribute_base (obj : Obj) (attr : String) (_value : PyVal) : Bool :=
  !(pyStartsWith attr "_" || is_internal_attribute obj attr)

/-- Embedding of `ImmutableSandboxedEnvironment.is_safe_attribute`: first
defer to the base check and return `false` if it denies, then deny the
mutating methods of builtin mutable containers. -/
def is_safe_attribute_immutable (obj : Obj) (attr : String) (value : PyVal) : Bool :=
  if !(is_safe_attribute_base obj attr value) then
    false
  else
    !(modifies_builtin_mutable obj attr)

/-- The two environment variants of the source: `SandboxedEnvironment`
(base) and `ImmutableSandboxedEnvironment` (immutable). -/
inductive EnvKind where
  | base
  | immutable
deriving DecidableEq, Repr

/-- Dispatch of `is_safe_attribute` over the environment variant. -/
def is_safe_attribute : EnvKind → Obj → String → PyVal → Bool
  | .base => is_safe_attribute_base
  | .immutable => is_safe_attribute_immutable

/-- Embedding of `SandboxedEnvironment.is_safe_callable`: an object is
safely callable unless `getattr(obj, "unsafe_callable", False)` or
`getattr(obj, "alters_data", False)` is truthy. -/
def is_safe_callable (obj : Obj) : Bool :=
  !(truthy ((obj.attrs "unsafe_callable").getD (.bool false)) ||
    truthy ((obj.attrs "alters_data").getD (.bool false)))

/-- Embedding of the `unsafe` decorator of the source (the spec's
`markUnsafe`): set the `unsafe_callable` attribute of the value to
`True` and return the (updated) value itself. -/
def markDangerous (f : Obj) : Obj :=
  { f with attrs := fun a => if a = "unsafe_callable" then some (.bool true) else f.attrs a }

/-- Error class recorded in a missing value produced by the environment's
`undefined` factory: the default undefined error, or `SecurityError`. -/
inductive ExcKind where
  | undefinedError
  | securityError
deriving DecidableEq, Repr

/-- Model of the sentinel produced by the environment's `undefined`
factory (`jinja2.runtime.Undefined`): the optional hint message, the
looked-up name, the error class, and the owning object when given. -/
structure MissingValue where
  hint : Option String := none
  name : Option Arg := none
  excKind : ExcKind := .undefinedError
  owner : Option Obj := none

/-- Result of `subscribe`: a real value, a missing-value sentinel, or a
propagated exception (`raised` marks an exception escaping the method;
the totality theorem shows it never occurs). -/
inductive SubRes where
  | val : PyVal → SubRes
  | undef : MissingValue → SubRes
  | raised : Nat → SubRes

/-- Python `repr` of a subscript argument as interpolated by `%r` in the
source's message: a text key reprs with quotes, an integer as itself. -/
def reprArg : Arg → String
  | .text t => "\x27" ++ t.s ++ "\x27"
  | .nonText n => toString n

/-- The hint message built by `subscribe` for a security denial:
`'access to attribute %r of %r object is unsafe.' % (argument,
obj.__class__.__name__)`. -/
def deniedAttrMsg (argument : Arg) (obj : Obj) : String :=
  "access to attribute " ++ reprArg argument ++ " of \x27" ++ obj.className ++
    "\x27 object is unsafe."

/-- Embedding of `SandboxedEnvironment.subscribe(obj, argument)`.  The
attribute phase runs only for a text argument: `str(argument)` under a
bare `except` (failure silently skips the phase), then `getattr` with
`AttributeError` caught and ignored, then the policy check — an allowed
value returns immediately, a denied one sets `is_unsafe`.  The item
phase tries `obj[argument]` catching `TypeError` and `LookupError`; on
failure it returns the security-tagged missing value when `is_unsafe`
was set, and the plain missing value (owner and name) otherwise. -/
def subscribe (env : EnvKind) (obj : Obj) (argument : Arg) : SubRes :=
  let attrStep : Option PyVal × Bool :=
    match argument with
    | .text t =>
      if t.strOk then
        match obj.attrs t.s with
        | some value =>
          if is_safe_attribute env obj t.s value then (some value, false)
          else (none, true)
        | none => (none, false)
      else (none, false)
    | .nonText _ => (none, false)
  match attrStep with
  | (some value, _) => .val value
  | (none, isUnsafeFlag) =>
    match obj.items argument with
    | .ok v => .val v
    | .typeErr | .lookupErr =>
      if isUnsafeFlag then
        .undef { hint := some (deniedAttrMsg argument obj), name := some argument,
                 excKind := .securityError, owner := none }
      else
        .undef { hint := none, name := some argument,
                 excKind := .undefinedError, owner := some obj }

/-- Exceptions observable from `call` and `safe_range`: the
`SecurityError` raised by the callable gate, the `OverflowError` raised
by `safe_range`, the `TypeError`/`ValueError` of a bad `xrange` call,
and an opaque failure propagated from the host context's own call. -/
inductive PyExc where
  | securityError : String → PyExc
  | overflowError : String → PyExc
  | typeError : PyExc
  | valueError : PyExc
  | hostExc : Nat → PyExc
deriving DecidableEq, Repr

/-- The context passed to `call`: it supplies the normal invocation
mechanism (`__context.call`), which may return a value or fail with a
host-side exception. -/
structure Context where
  callFn : Obj → List PyVal → List (String × PyVal) → Except PyExc PyVal

/-- Embedding of `SandboxedEnvironment.call(__context, __obj, *args,
**kwargs)`: raise `SecurityError` when the object is not safely
callable, otherwise delegate to `__context.call` with the same
arguments, forwarding its result or failure unchanged. -/
def call (ctx : Context) (obj : Obj) (args : List PyVal)
    (kwargs : List (String × PyVal)) : Except PyExc PyVal :=
  if !(is_safe_callable obj) then
    .error (.securityError (obj.reprStr ++ " is not safely callable"))
  else
    ctx.callFn obj args kwargs

/-- An `xrange` object: the (start, stop, step) triple.  `xrange`
itself rejects `step = 0`; `safe_range` constructs it from the
positional arguments. -/
structure XRange where
  start : Int
  stop : Int
  step : Int
deriving DecidableEq, Repr

/-- Length of an ascending range, as CPython's `get_len_of_range(lo, hi,
step)` computes it for a positive step: `0` when `hi <= lo`, else
`(hi - lo - 1) // step + 1`. -/
def lenAsc (lo hi step : Int) : Nat :=
  if hi ≤ lo then 0 else (hi - lo - 1).toNat / step.toNat + 1

/-- Length of an `xrange`, computed from the (start, stop, step) triple
alone, as CPython does: for a positive step via `lenAsc start stop
step`, otherwise via `lenAsc` with the bounds swapped and the step
negated. -/
def XRange.len (r : XRange) : Nat :=
  if 0 < r.step then lenAsc r.start r.stop r.step
  else lenAsc r.stop r.start (-r.step)

/-- Iteration state over an `xrange`: the next value to produce and the
fixed stop/step. -/
structure XIter where
  cur : Int
  stop : Int
  step : Int
deriving DecidableEq, Repr

/-- A fresh iterator over an `xrange`: `iter(rng)` starts at `start`
every time it is taken, which is what makes the range restartable. -/
def XRange.iter (r : XRange) : XIter := ⟨r.start, r.stop, r.step⟩

/-- Does the iterator still have an element: ascending iteration stops
at `cur >= stop`, descending at `cur <= stop`. -/
def XIter.hasNext (it : XIter) : Bool :=
  if 0 < it.step then it.cur < it.stop else it.stop < it.cur

/-- Drain an iterator with explicit fuel (an upper bound on the number
of remaining elements): emit `cur` and advance by `step` while
`hasNext`. -/
def drainAux : Nat → XIter → List Int
  | 0, _ => []
  | n + 1, it =>
    if it.hasNext then it.cur :: drainAux n { it with cur := it.cur + it.step }
    else []

/-- The list of integers a fresh iteration of the `xrange` produces;
`(stop - start)` resp. `(start - stop)` bounds the element count for a
nonzero step, so it serves as fuel. -/
def XRange.toList (r : XRange) : List Int :=
  drainAux (if 0 < r.step then (r.stop - r.start).toNat else (r.start - r.stop).toNat) r.iter

/-- Construction of the `xrange` from `safe_range`'s positional
arguments, with CPython's arities: one argument is `stop`, two are
`start, stop`, three add `step` (a zero step is a `ValueError`); any
other arity is a `TypeError`. -/
def xrangeOfArgs : List Int → Except PyExc XRange
  | [stop] => .ok ⟨0, stop, 1⟩
  | [start, stop] => .ok ⟨start, stop, 1⟩
  | [start, stop, step] =>
    if step = 0 then .error .valueError else .ok ⟨start, stop, step⟩
  | _ => .error .typeError

/-- Embedding of `safe_range(*args)`: build the `xrange`, then raise
`OverflowError` naming `MAX_RANGE` when its length exceeds `MAX_RANGE`,
else return the range itself. -/
def safe_range (args : List Int) : Except PyExc XRange :=
  match xrangeOfArgs args with
  | .error e => .error e
  | .ok rng =>
    if rng.len > MAX_RANGE then
      .error (.overflowError
        ("range too big, maximum size for range is " ++ toString MAX_RANGE))
    else
      .ok rng

/-- Concrete host objects used to instantiate the theorems below. -/
def plainObj : Obj := {}

/-- A plain dict-like object (mapping category only). -/
def dictObj : Obj := { isDictType := true, className := "dict" }

/-- A function-like object. -/
def funcObj : Obj := { isFunction := true, className := "function", reprStr := "<function f>" }

/-- An object with a private attribute `_secret` that is also reachable
through item lookup. -/
def secretItemObj : Obj :=
  { className := "Params",
    attrs := fun a => if a = "_secret" then some (.str "hidden") else none,
    items := fun arg => if arg = .text ⟨"_secret", true⟩ then .ok (.str "itemval") else .lookupErr }

/-- An object with a private attribute `_hidden` and no item protocol. -/
def secretNoItemObj : Obj :=
  { className := "Config",
    attrs := fun a => if a = "_hidden" then some (.int 3) else none,
    items := fun _ => .typeErr }

/-- A context whose invocation mechanism always returns the integer 7. -/
def okCtx : Context := ⟨fun _ _ _ => .ok (.int 7)⟩

/-!
Arithmetic lemmas about the range model: the length formula computed
from the (start, stop, step) triple agrees with the list a traversal
materializes, and an ascending traversal is the arithmetic progression.
-/

/-- One ascending step removes exactly one element from the computed
length. -/
lemma lenAsc_pos_succ {cur stop step : Int} (hstep : 0 < step) (hlt : cur < stop) :
    lenAsc cur stop step = lenAsc (cur + step) stop step + 1 := by
  unfold lenAsc
  rw [if_neg (by omega : ¬ stop ≤ cur)]
  by_cases h2 : stop ≤ cur + step
  · rw [if_pos h2]
    have hlt' : (stop - cur - 1).toNat < step.toNat := by omega
    rw [Nat.div_eq_of_lt hlt']
  · rw [if_neg h2]
    have hs : 0 < step.toNat := by omega
    have hle : step.toNat ≤ (stop - cur - 1).toNat := by omega
    have hsub : (stop - cur - 1).toNat - step.toNat = (stop - (cur + step) - 1).toNat := by
      omega
    rw [Nat.div_eq_sub_div hs hle, hsub]

/-- The fuel `(stop - cur)` bounds the computed length of an ascending
range. -/
lemma lenAsc_le {cur stop step : Int} (_hstep : 0 < step) :
    lenAsc cur stop step ≤ (stop - cur).toNat := by
  unfold lenAsc
  by_cases h : stop ≤ cur
  · simp [h]
  · rw [if_neg h]
    have hd := Nat.div_le_self (stop - cur - 1).toNat step.toNat
    generalize (stop - cur - 1).toNat / step.toNat = d at hd ⊢
    omega

/-- An ascending traversal with enough fuel produces exactly the
arithmetic progression of the computed length. -/
lemma drainAux_asc (step : Int) (hstep : 0 < step) :
    ∀ (fuel : Nat) (cur stop : Int), lenAsc cur stop step ≤ fuel →
      drainAux fuel ⟨cur, stop, step⟩ =
        (List.range (lenAsc cur stop step)).map (fun (i : Nat) => cur + step * (i : Int)) := by
  intro fuel
  induction fuel with
  | zero =>
    intro cur stop h
    have h0 : lenAsc cur stop step = 0 := Nat.le_zero.mp h
    simp [drainAux, h0]
  | succ n ih =>
    intro cur stop h
    by_cases hlt : cur < stop
    · have hnext : lenAsc cur stop step = lenAsc (cur + step) stop step + 1 :=
        lenAsc_pos_succ hstep hlt
      have hfuel : lenAsc (cur + step) stop step ≤ n := by omega
      have hhn : XIter.hasNext ⟨cur, stop, step⟩ = true := by
        simp [XIter.hasNext, hstep, hlt]
      rw [hnext]
      show (if XIter.hasNext ⟨cur, stop, step⟩ = true then
              cur :: drainAux n ⟨cur + step, stop, step⟩ else []) = _
      rw [if_pos hhn, ih (cur + step) stop hfuel, List.range_succ_eq_map]
      simp only [List.map_cons, List.map_map, Function.comp]
      congr 1
      · simp
      · congr 1
        funext i
        simp only [Function.comp_apply]
        push_cast
        ring
    · have h0 : lenAsc cur stop step = 0 := by unfold lenAsc; rw [if_pos (by omega)]
      have hhn : XIter.hasNext ⟨cur, stop, step⟩ = false := by
        simp [XIter.hasNext, hstep]; omega
      rw [h0]
      show (if XIter.hasNext ⟨cur, stop, step⟩ = true then
              cur :: drainAux n ⟨cur + step, stop, step⟩ else []) = _
      rw [hhn]
      simp

/-- A descending traversal is the negation of the ascending traversal of
the negated triple. -/
lemma drainAux_neg (step : Int) (hstep : step < 0) :
    ∀ (fuel : Nat) (cur stop : Int),
      drainAux fuel ⟨cur, stop, step⟩ =
        (drainAux fuel ⟨-cur, -stop, -step⟩).map (fun x => -x) := by
  intro fuel
  induction fuel with
  | zero => intro cur stop; simp [drainAux]
  | succ n ih =>
    intro cur stop
    by_cases hlt : stop < cur
    · have ha : XIter.hasNext ⟨cur, stop, step⟩ = true := by
        simp only [XIter.hasNext]
        rw [if_neg (by omega : ¬ (0:Int) < step)]
        simp [hlt]
      have hb : XIter.hasNext ⟨-cur, -stop, -step⟩ = true := by
        simp only [XIter.hasNext]
        rw [if_pos (by omega : (0:Int) < -step)]
        simp
        omega
      show (if XIter.hasNext ⟨cur, stop, step⟩ = true then
              cur :: drainAux n ⟨cur + step, stop, step⟩ else []) = _
      rw [ha]
      conv_rhs =>
        rw [show drainAux (n + 1) ⟨-cur, -stop, -step⟩ =
              (if XIter.hasNext ⟨-cur, -stop, -step⟩ = true then
                -cur :: drainAux n ⟨-cur + -step, -stop, -step⟩ else []) from rfl]
      rw [hb]
      simp only [if_pos, List.map_cons, neg_neg]
      have e1 : -cur + -step = -(cur + step) := by ring
      rw [e1]
      exact congrArg (cur :: ·) (ih (cur + step) stop)
    · have ha : XIter.hasNext ⟨cur, stop, step⟩ = false := by
        simp only [XIter.hasNext]
        rw [if_neg (by omega : ¬ (0:Int) < step)]
        simp [hlt]
      have hb : XIter.hasNext ⟨-cur, -stop, -step⟩ = false := by
        simp only [XIter.hasNext]
        rw [if_pos (by omega : (0:Int) < -step)]
        simp
        omega
      show (if XIter.hasNext ⟨cur, stop, step⟩ = true then
              cur :: drainAux n ⟨cur + step, stop, step⟩ else []) = _
      rw [ha]
      conv_rhs =>
        rw [show drainAux (n + 1) ⟨-cur, -stop, -step⟩ =
              (if XIter.hasNext ⟨-cur, -stop, -step⟩ = true then
                -cur :: drainAux n ⟨-cur + -step, -stop, -step⟩ else []) from rfl]
      rw [hb]
      simp

/-- Negating both bounds swaps them in the length formula. -/
lemma lenAsc_neg (a b c : Int) : lenAsc (-a) (-b) c = lenAsc b a c := by
  unfold lenAsc
  have hn : (-b - -a - 1).toNat = (a - b - 1).toNat := by omega
  rw [hn]
  by_cases h : a ≤ b
  · rw [if_pos (by omega : (-b:Int) ≤ -a), if_pos h]
  · rw [if_neg (by omega : ¬ (-b:Int) ≤ -a), if_neg h]

/-- An ascending range materializes to the arithmetic progression of its
computed length. -/
theorem XRange.toList_asc (r : XRange) (h : 0 < r.step) :
    r.toList = (List.range r.len).map (fun (i : Nat) => r.start + r.step * (i : Int)) := by
  unfold XRange.toList XRange.len XRange.iter
  rw [if_pos h, if_pos h]
  exact drainAux_asc r.step h _ r.start r.stop (lenAsc_le h)

/-- The length computed arithmetically from the (start, stop, step)
triple equals the length of the materialized list, for any nonzero
step. -/
theorem XRange.toList_length (r : XRange) (h : r.step ≠ 0) :
    r.toList.length = r.len := by
  rcases lt_or_gt_of_ne h with hneg | hpos
  · unfold XRange.toList XRange.len XRange.iter
    have h0 : ¬ 0 < r.step := by omega
    rw [if_neg h0, if_neg h0]
    rw [drainAux_neg r.step hneg _ r.start r.stop, List.length_map]
    have hfuel : lenAsc (-r.start) (-r.stop) (-r.step) ≤ (r.start - r.stop).toNat := by
      have hh := @lenAsc_le (-r.start) (-r.stop) (-r.step) (by omega)
      generalize lenAsc (-r.start) (-r.stop) (-r.step) = d at hh ⊢
      omega
    rw [drainAux_asc (-r.step) (by omega) _ _ _ hfuel, List.length_map, List.length_range]
    exact lenAsc_neg r.start r.stop (-r.step)
  · rw [XRange.toList_asc r hpos, List.length_map, List.length_range]

/-!
Scenario equations for `subscribe`, one per path through the source.
-/

/-- Attribute found and allowed: returned immediately. -/
lemma subscribe_attr_safe {env : EnvKind} {obj : Obj} {t : TextKey} {value : PyVal}
    (hOk : t.strOk = true) (hA : obj.attrs t.s = some value)
    (hS : is_safe_attribute env obj t.s value = true) :
    subscribe env obj (.text t) = .val value := by
  simp [subscribe, hOk, hA, hS]

/-- Attribute found but denied, item lookup succeeds: the item value. -/
lemma subscribe_denied_item_ok {env : EnvKind} {obj : Obj} {t : TextKey} {value v : PyVal}
    (hOk : t.strOk = true) (hA : obj.attrs t.s = some value)
    (hS : is_safe_attribute env obj t.s value = false)
    (hI : obj.items (.text t) = .ok v) :
    subscribe env obj (.text t) = .val v := by
  simp [subscribe, hOk, hA, hS, hI]

/-- Attribute found but denied, item lookup fails: the security-tagged
missing value. -/
lemma subscribe_denied_item_fail {env : EnvKind} {obj : Obj} {t : TextKey} {value : PyVal}
    (hOk : t.strOk = true) (hA : obj.attrs t.s = some value)
    (hS : is_safe_attribute env obj t.s value = false)
    (hI : obj.items (.text t) = .typeErr ∨ obj.items (.text t) = .lookupErr) :
    subscribe env obj (.text t) =
      .undef { hint := some (deniedAttrMsg (.text t) obj), name := some (.text t),
               excKind := .securityError, owner := none } := by
  rcases hI with hI | hI <;> simp [subscribe, hOk, hA, hS, hI]

/-- No attribute of that name: resolution falls through to item lookup
with the flag unset. -/
lemma subscribe_no_attr {env : EnvKind} {obj : Obj} {t : TextKey}
    (hOk : t.strOk = true) (hA : obj.attrs t.s = none) :
    subscribe env obj (.text t) =
      (match obj.items (.text t) with
       | .ok v => .val v
       | .typeErr | .lookupErr =>
         .undef { hint := none, name := some (.text t),
                  excKind := .undefinedError, owner := some obj }) := by
  cases hI : obj.items (.text t) <;> simp [subscribe, hOk, hA, hI]

/-- Failed `str()` conversion: the attribute branch is skipped entirely
and resolution is exactly the item lookup with the flag unset. -/
lemma subscribe_str_fail {env : EnvKind} {obj : Obj} {t : TextKey}
    (hOk : t.strOk = false) :
    subscribe env obj (.text t) =
      (match obj.items (.text t) with
       | .ok v => .val v
       | .typeErr | .lookupErr =>
         .undef { hint := none, name := some (.text t),
                  excKind := .undefinedError, owner := some obj }) := by
  cases hI : obj.items (.text t) <;> simp [subscribe, hOk, hI]

/-- Non-text argument: the attribute branch is skipped entirely. -/
lemma subscribe_nonText {env : EnvKind} {obj : Obj} {n : Int} :
    subscribe env obj (.nonText n) =
      (match obj.items (.nonText n) with
       | .ok v => .val v
       | .typeErr | .lookupErr =>
         .undef { hint := none, name := some (.nonText n),
                  excKind := .undefinedError, owner := some obj }) := by
  cases hI : obj.items (.nonText n) <;> simp [subscribe, hI]

/-- C1: for every environment variant, object and key, `subscribe` is
total — it never lets an exception propagate (its result is never the
`raised` variant) and every execution path returns either a real value
or a MissingValue; by contrast callable invocation may fail, witnessed
by a call whose result is an error. -/
theorem claim_C1 :
    (∀ (env : EnvKind) (obj : Obj) (argument : Arg),
        (∃ v, subscribe env obj argument = .val v) ∨
        (∃ u, subscribe env obj argument = .undef u)) ∧
    (∃ (ctx : Context) (obj : Obj) (e : PyExc), call ctx obj [] [] = .error e) := by
  constructor
  · intro env obj argument
    cases argument with
    | text t =>
      cases hOk : t.strOk with
      | true =>
        cases hA : obj.attrs t.s with
        | some value =>
          cases hS : is_safe_attribute env obj t.s value with
          | true => exact Or.inl ⟨value, subscribe_attr_safe hOk hA hS⟩
          | false =>
            rcases hI : obj.items (.text t) with v | _ | _
            · exact Or.inl ⟨v, subscribe_denied_item_ok hOk hA hS hI⟩
            · exact Or.inr ⟨_, subscribe_denied_item_fail hOk hA hS (Or.inl hI)⟩
            · exact Or.inr ⟨_, subscribe_denied_item_fail hOk hA hS (Or.inr hI)⟩
        | none =>
          rcases hI : obj.items (.text t) with v | _ | _
          · exact Or.inl ⟨v, by rw [subscribe_no_attr hOk hA, hI]⟩
          · exact Or.inr ⟨_, by rw [subscribe_no_attr hOk hA, hI]⟩
          · exact Or.inr ⟨_, by rw [subscribe_no_attr hOk hA, hI]⟩
      | false =>
        rcases hI : obj.items (.text t) with v | _ | _
        · exact Or.inl ⟨v, by rw [subscribe_str_fail hOk, hI]⟩
        · exact Or.inr ⟨_, by rw [subscribe_str_fail hOk, hI]⟩
        · exact Or.inr ⟨_, by rw [subscribe_str_fail hOk, hI]⟩
    | nonText n =>
      rcases hI : obj.items (.nonText n) with v | _ | _
      · exact Or.inl ⟨v, by rw [subscribe_nonText, hI]⟩
      · exact Or.inr ⟨_, by rw [subscribe_nonText, hI]⟩
      · exact Or.inr ⟨_, by rw [subscribe_nonText, hI]⟩
  · exact ⟨okCtx, markDangerous funcObj,
      .securityError "<function f> is not safely callable", rfl⟩

/-- C2: `call` fails with a `SecurityError` (an error result, never a
MissingValue — its result type has no missing variant) exactly when
`is_safe_callable` rejects the target, and otherwise delegates to the
context's invocation mechanism with the same arguments, forwarding its
result or failure unchanged; in particular a value passed through the
`unsafe` decorator is rejected and an untagged value delegates
normally. -/
theorem claim_C2 :
    (∀ (ctx : Context) (obj : Obj) (args : List PyVal) (kwargs : List (String × PyVal)),
      is_safe_callable obj = false →
        call ctx obj args kwargs =
          .error (.securityError (obj.reprStr ++ " is not safely callable"))) ∧
    (∀ (ctx : Context) (obj : Obj) (args : List PyVal) (kwargs : List (String × PyVal)),
      is_safe_callable obj = true →
        call ctx obj args kwargs = ctx.callFn obj args kwargs) ∧
    (∀ (ctx : Context) (f : Obj) (args : List PyVal) (kwargs : List (String × PyVal)),
      call ctx (markDangerous f) args kwargs =
        .error (.securityError (f.reprStr ++ " is not safely callable"))) ∧
    (∀ (ctx : Context) (f : Obj) (args : List PyVal) (kwargs : List (String × PyVal)),
      f.attrs "unsafe_callable" = none → f.attrs "alters_data" = none →
        call ctx f args kwargs = ctx.callFn f args kwargs) := by
  refine ⟨?_, ?_, ?_, ?_⟩
  · intro ctx obj args kwargs h
    simp [call, h]
  · intro ctx obj args kwargs h
    simp [call, h]
  · intro ctx f args kwargs
    have h : is_safe_callable (markDangerous f) = false := by
      simp [is_safe_callable, markDangerous, truthy]
    have hr : (markDangerous f).reprStr = f.reprStr := rfl
    simp [call, h, hr]
  · intro ctx f args kwargs h1 h2
    have h : is_safe_callable f = true := by
      simp [is_safe_callable, h1, h2, truthy]
    simp [call, h]

/-- C2 witness: a decorated function is rejected with the concrete
security message; an untagged function returns the context's normal
result. -/
theorem claim_C2_w :
    call okCtx (markDangerous funcObj) [] [] =
      .error (.securityError "<function f> is not safely callable") ∧
    call okCtx funcObj [] [] = .ok (.int 7) :=
  ⟨claim_C2.2.2.1 okCtx funcObj [] [],
   claim_C2.2.2.2 okCtx funcObj [] [] rfl rfl⟩

/-- C3: when a text key's attribute lookup succeeds but the policy
denies it, `subscribe` still attempts item lookup: a successful item
lookup returns the item value; a failed one returns the MissingValue
tagged with the security error class, whose hint message names the
attribute and the object's class; when the attribute was never denied
(no such attribute), a plain MissingValue carrying the object and key
results instead. -/
theorem claim_C3 :
    (∀ (env : EnvKind) (obj : Obj) (t : TextKey) (value : PyVal),
      t.strOk = true → obj.attrs t.s = some value →
      is_safe_attribute env obj t.s value = false →
      ((∀ v, obj.items (.text t) = .ok v → subscribe env obj (.text t) = .val v) ∧
       ((obj.items (.text t) = .typeErr ∨ obj.items (.text t) = .lookupErr) →
         subscribe env obj (.text t) =
           .undef { hint := some (deniedAttrMsg (.text t) obj), name := some (.text t),
                    excKind := .securityError, owner := none }))) ∧
    (∀ (env : EnvKind) (obj : Obj) (t : TextKey),
      t.strOk = true → obj.attrs t.s = none →
      (obj.items (.text t) = .typeErr ∨ obj.items (.text t) = .lookupErr) →
      subscribe env obj (.text t) =
        .undef { hint := none, name := some (.text t),
                 excKind := .undefinedError, owner := some obj }) := by
  constructor
  · intro env obj t value hOk hA hS
    exact ⟨fun v hI => subscribe_denied_item_ok hOk hA hS hI,
           fun hI => subscribe_denied_item_fail hOk hA hS hI⟩
  · intro env obj t hOk hA hI
    rcases hI with hI | hI <;> rw [subscribe_no_attr hOk hA, hI]

/-- C3 witness: a denied `_secret` attribute resolves through item
lookup; a denied `_hidden` attribute with no item protocol yields the
security-tagged MissingValue; an absent attribute yields the plain
MissingValue. -/
theorem claim_C3_w :
    subscribe .base secretItemObj (.text ⟨"_secret", true⟩) = .val (.str "itemval") ∧
    subscribe .base secretNoItemObj (.text ⟨"_hidden", true⟩) =
      .undef { hint := some (deniedAttrMsg (.text ⟨"_hidden", true⟩) secretNoItemObj),
               name := some (.text ⟨"_hidden", true⟩),
               excKind := .securityError, owner := none } ∧
    subscribe .base plainObj (.text ⟨"_nope", true⟩) =
      .undef { hint := none, name := some (.text ⟨"_nope", true⟩),
               excKind := .undefinedError, owner := some plainObj } := by
  refine ⟨?_, ?_, ?_⟩
  · exact (claim_C3.1 .base secretItemObj ⟨"_secret", true⟩ (.str "hidden") rfl (by decide)
      (by decide)).1 (.str "itemval") (by decide)
  · exact (claim_C3.1 .base secretNoItemObj ⟨"_hidden", true⟩ (.int 3) rfl (by decide)
      (by decide)).2 (Or.inl (by decide))
  · exact claim_C3.2 .base plainObj ⟨"_nope", true⟩ rfl rfl (Or.inl rfl)

/-- C4: the immutable policy narrows the base policy monotonically —
whatever the base `is_safe_attribute` denies, the immutable variant
denies as well. -/
theorem claim_C4 :
    ∀ (obj : Obj) (attr : String) (value : PyVal),
      is_safe_attribute_base obj attr value = false →
      is_safe_attribute_immutable obj attr value = false := by
  intro obj attr value h
  simp [is_safe_attribute_immutable, h]

/-- C4 witness: a private attribute denied by the base policy is also
denied by the immutable policy. -/
theorem claim_C4_w : is_safe_attribute_immutable plainObj "_x" (.ref 0) = false :=
  claim_C4 plainObj "_x" (.ref 0) (by decide)

/-- C6: the base policy denies exactly when the attribute name starts
with an underscore or `is_internal_attribute` classifies it internal;
in particular any underscore-initial attribute is denied for every
object and value. -/
theorem claim_C6 :
    ∀ (obj : Obj) (attr : String) (value : PyVal),
      (is_safe_attribute_base obj attr value = false ↔
        (pyStartsWith attr "_" = true ∨ is_internal_attribute obj attr = true)) ∧
      (pyStartsWith attr "_" = true → is_safe_attribute_base obj attr value = false) := by
  intro obj attr value
  constructor
  · cases h1 : pyStartsWith attr "_" <;> cases h2 : is_internal_attribute obj attr <;>
      simp [is_safe_attribute_base, h1, h2]
  · intro h
    simp [is_safe_attribute_base, h]

/-- C6 witness: the underscore rule applied at a concrete object and
attribute. -/
theorem claim_C6_w : is_safe_attribute_base plainObj "_x" (.ref 0) = false :=
  (claim_C6 plainObj "_x" (.ref 0)).2 (by decide)

/-- C7: `is_internal_attribute` follows its ordered rules with first
match winning — for function-like targets membership in the five fixed
function attribute names; for method-like targets those five plus the
three method names; for type objects exactly `mro`; for code, traceback
and frame objects always true; for generators exactly `gi_frame`; and
otherwise the two-leading-underscores test. -/
theorem claim_C7 :
    ∀ (obj : Obj) (attr : String),
      (obj.isFunction = true →
        is_internal_attribute obj attr = RESTRICTED_FUNCTION_ATTRIBUTES.contains attr) ∧
      (obj.isFunction = false → obj.isMethod = true →
        is_internal_attribute obj attr =
          (RESTRICTED_FUNCTION_ATTRIBUTES.contains attr ||
           RESTRICTED_METHOD_ATTRIBUTES.contains attr)) ∧
      (obj.isFunction = false → obj.isMethod = false → obj.isTypeObj = true →
        (is_internal_attribute obj attr = true ↔ attr = "mro")) ∧
      (obj.isFunction = false → obj.isMethod = false → obj.isTypeObj = false →
        (obj.isCode = true ∨ obj.isTraceback = true ∨ obj.isFrame = true) →
        is_internal_attribute obj attr = true) ∧
      (obj.isFunction = false → obj.isMethod = false → obj.isTypeObj = false →
        obj.isCode = false → obj.isTraceback = false → obj.isFrame = false →
        obj.isGenerator = true →
        (is_internal_attribute obj attr = true ↔ attr = "gi_frame")) ∧
      (obj.isFunction = false → obj.isMethod = false → obj.isTypeObj = false →
        obj.isCode = false → obj.isTraceback = false → obj.isFrame = false →
        obj.isGenerator = false →
        is_internal_attribute obj attr = pyStartsWith attr "__") := by
  intro obj attr
  refine ⟨?_, ?_, ?_, ?_, ?_, ?_⟩
  · intro h1
    simp [is_internal_attribute, h1]
  · intro h1 h2
    simp [is_internal_attribute, h1, h2]
  · intro h1 h2 h3
    simp [is_internal_attribute, h1, h2, h3]
  · intro h1 h2 h3 h4
    rcases h4 with h4 | h4 | h4 <;> simp [is_internal_attribute, h1, h2, h3, h4]
  · intro h1 h2 h3 h4 h5 h6 h7
    simp [is_internal_attribute, h1, h2, h3, h4, h5, h6, h7]
  · intro h1 h2 h3 h4 h5 h6 h7
    simp [is_internal_attribute, h1, h2, h3, h4, h5, h6, h7]

/-- C7 witness: the function rule, the double-underscore fallback, and
a non-internal attribute on a plain object. -/
theorem claim_C7_w :
    is_internal_attribute funcObj "func_code" = true ∧
    is_internal_attribute plainObj "__class__" = true ∧
    is_internal_attribute plainObj "upper" = false := by
  refine ⟨?_, ?_, ?_⟩
  · rw [(claim_C7 funcObj "func_code").1 rfl]
    decide
  · rw [(claim_C7 plainObj "__class__").2.2.2.2.2 rfl rfl rfl rfl rfl rfl rfl]
    decide
  · rw [(claim_C7 plainObj "upper").2.2.2.2.2 rfl rfl rfl rfl rfl rfl rfl]
    decide

/-- C8: `modifies_builtin_mutable` classifies the target into at most
one container category, tested in the fixed order list before dict
before set, answers membership in the matched category's mutating-name
set, and yields false when no category matches; consequently the
immutable policy denies `clear` on a dict-like value while the base
policy allows it. -/
theorem claim_C8 :
    (∀ (obj : Obj) (attr : String),
      (obj.isListType = true →
        modifies_builtin_mutable obj attr = MODIFYING_LIST_ATTRIBUTES.contains attr) ∧
      (obj.isListType = false → obj.isDictType = true →
        modifies_builtin_mutable obj attr = MODIFYING_DICT_ATTRIBUTES.contains attr) ∧
      (obj.isListType = false → obj.isDictType = false → obj.isSetType = true →
        modifies_builtin_mutable obj attr = MODIFYING_SET_ATTRIBUTES.contains attr) ∧
      (obj.isListType = false → obj.isDictType = false → obj.isSetType = false →
        modifies_builtin_mutable obj attr = false)) ∧
    (∀ (m : Obj) (value : PyVal), m.isListType = false → m.isDictType = true →
      is_safe_attribute_immutable m "clear" value = false) ∧
    (∀ value : PyVal, is_safe_attribute_base dictObj "clear" value = true) := by
  refine ⟨?_, ?_, ?_⟩
  · intro obj attr
    refine ⟨?_, ?_, ?_, ?_⟩
    · intro h1
      simp [modifies_builtin_mutable, h1]
    · intro h1 h2
      simp [modifies_builtin_mutable, h1, h2]
    · intro h1 h2 h3
      simp [modifies_builtin_mutable, h1, h2, h3]
    · intro h1 h2 h3
      simp [modifies_builtin_mutable, h1, h2, h3]
  · intro m value hL hD
    cases hb : is_safe_attribute_base m "clear" value with
    | false => simp [is_safe_attribute_immutable, hb]
    | true =>
      have hm : modifies_builtin_mutable m "clear" = true := by
        simp [modifies_builtin_mutable, hL, hD, MODIFYING_DICT_ATTRIBUTES]
      simp [is_safe_attribute_immutable, hb, hm]
  · intro value
    rfl

/-- C8 witness: applied at a concrete dict object and the `clear`
attribute. -/
theorem claim_C8_w :
    modifies_builtin_mutable dictObj "clear" = true ∧
    is_safe_attribute_immutable dictObj "clear" (.ref 0) = false ∧
    is_safe_attribute_base dictObj "clear" (.ref 0) = true := by
  refine ⟨?_, ?_, ?_⟩
  · rw [(claim_C8.1 dictObj "clear").2.1 rfl rfl]
    decide
  · exact claim_C8.2.1 dictObj (.ref 0) rfl rfl
  · exact claim_C8.2.2 (.ref 0)

/-- C9: `is_safe_callable` is false exactly when the object carries a
truthy `unsafe_callable` or `alters_data` attribute (both absent means
the `False` default), so it rejects exactly the values passed through
the `unsafe` decorator or carrying the data-altering tag and accepts an
ordinary untagged value; the decorator sets the flag to `True` and
leaves everything else about the value unchanged. -/
theorem claim_C9 :
    (∀ f : Obj, is_safe_callable f = false ↔
      (truthy ((f.attrs "unsafe_callable").getD (.bool false)) = true ∨
       truthy ((f.attrs "alters_data").getD (.bool false)) = true)) ∧
    (∀ f : Obj, is_safe_callable (markDangerous f) = false) ∧
    (∀ f : Obj, f.attrs "unsafe_callable" = none → f.attrs "alters_data" = none →
       is_safe_callable f = true) ∧
    (∀ f : Obj, (markDangerous f).attrs "unsafe_callable" = some (.bool true) ∧
       (∀ a : String, a ≠ "unsafe_callable" → (markDangerous f).attrs a = f.attrs a) ∧
       { f with attrs := (markDangerous f).attrs } = markDangerous f) := by
  refine ⟨?_, ?_, ?_, ?_⟩
  · intro f
    cases h1 : truthy ((f.attrs "unsafe_callable").getD (.bool false)) <;>
      cases h2 : truthy ((f.attrs "alters_data").getD (.bool false)) <;>
      simp [is_safe_callable, h1, h2]
  · intro f
    simp [is_safe_callable, markDangerous, truthy]
  · intro f h1 h2
    simp [is_safe_callable, h1, h2, truthy]
  · intro f
    refine ⟨by simp [markDangerous], ?_, rfl⟩
    intro a ha
    simp [markDangerous, ha]

/-- C9 witness: the decorator makes a concrete function value rejected,
an untagged one is accepted, and the flag is set on the decorated
value. -/
theorem claim_C9_w :
    is_safe_callable (markDangerous funcObj) = false ∧
    is_safe_callable funcObj = true ∧
    (markDangerous funcObj).attrs "unsafe_callable" = some (.bool true) :=
  ⟨claim_C9.2.1 funcObj, claim_C9.2.2.1 funcObj rfl rfl, (claim_C9.2.2.2 funcObj).1⟩

/-- C10: when a text key's `str()` conversion fails, the attribute
branch (including the policy check) is silently skipped: resolution is
exactly the item lookup with the denial flag unset, so such a key can
never produce a security-tagged MissingValue — on item-lookup failure
the plain not-found MissingValue results. -/
theorem claim_C10 :
    ∀ (env : EnvKind) (obj : Obj) (t : TextKey),
      t.strOk = false →
      ((∀ v, obj.items (.text t) = .ok v → subscribe env obj (.text t) = .val v) ∧
       ((obj.items (.text t) = .typeErr ∨ obj.items (.text t) = .lookupErr) →
         subscribe env obj (.text t) =
           .undef { hint := none, name := some (.text t),
                    excKind := .undefinedError, owner := some obj }) ∧
       (∀ u, subscribe env obj (.text t) = .undef u → u.excKind = .undefinedError)) := by
  intro env obj t hOk
  refine ⟨?_, ?_, ?_⟩
  · intro v hI
    rw [subscribe_str_fail hOk, hI]
  · intro hI
    rcases hI with hI | hI <;> rw [subscribe_str_fail hOk, hI]
  · intro u hu
    rw [subscribe_str_fail hOk] at hu
    rcases hI : obj.items (.text t) with v | _ | _ <;> rw [hI] at hu
    · cases hu
    · injection hu with h
      rw [← h]
    · injection hu with h
      rw [← h]

/-- C10 witness: a key whose conversion fails, on an object that does
possess the attribute, still yields the plain MissingValue (no security
tag). -/
theorem claim_C10_w :
    subscribe .base secretNoItemObj (.text ⟨"_hidden", false⟩) =
      .undef { hint := none, name := some (.text ⟨"_hidden", false⟩),
               excKind := .undefinedError, owner := some secretNoItemObj } :=
  (claim_C10 .base secretNoItemObj ⟨"_hidden", false⟩ rfl).2.1 (Or.inl rfl)

/-- C5: `safe_range [0, 100001]` fails with the overflow error naming
the 100000 ceiling; `safe_range [0, 100000]` succeeds and its range
materializes to exactly 100000 integers in strictly ascending
arithmetic-progression order; a traversal restarted from a fresh
iterator reproduces the same list (`iter` is a pure function of the
triple); and for every nonzero step the length is computed from the
(start, stop, step) triple alone, agreeing with the materialized
list. -/
theorem claim_C5 :
    (safe_range [0, 100001] =
      .error (.overflowError "range too big, maximum size for range is 100000")) ∧
    (∃ r : XRange, safe_range [0, 100000] = .ok r ∧
      r.toList.length = 100000 ∧
      List.Pairwise (· < ·) r.toList ∧
      r.toList = (List.range 100000).map (fun (i : Nat) => (i : Int)) ∧
      drainAux ((r.stop - r.start).toNat) r.iter = r.toList) ∧
    (∀ r : XRange, r.step ≠ 0 → r.len = r.toList.length) := by
  have hlen : XRange.len ⟨0, 100000, 1⟩ = 100000 := by decide
  have hmap : XRange.toList ⟨0, 100000, 1⟩ =
      (List.range 100000).map (fun (i : Nat) => (i : Int)) := by
    have h := XRange.toList_asc ⟨0, 100000, 1⟩ (by decide)
    rw [hlen] at h
    rw [h]
    congr 1
    funext i
    simp
  refine ⟨by rfl, ⟨⟨0, 100000, 1⟩, by rfl, ?_, ?_, hmap, by rfl⟩, ?_⟩
  · rw [hmap, List.length_map, List.length_range]
  · rw [hmap]
    exact List.Pairwise.map _ (fun a b hab => by exact_mod_cast hab)
      (List.pairwise_lt_range 100000)
  · intro r hr
    exact (XRange.toList_length r hr).symm

/-- C5 witness: the length formula agrees with a materialized traversal
on a concrete descending range. -/
theorem claim_C5_w : XRange.len ⟨5, 0, -2⟩ = (XRange.toList ⟨5, 0, -2⟩).length :=
  claim_C5.2.2 ⟨5, 0, -2⟩ (by decide)

end Sandbox
